import Mathlib

/-!
Verification of `src/execution/check_env.py` (repository Antigravity).

The script prints the interpreter executable path and the current working
directory, then prints a success line when the literal `.venvs/Antigravity`
occurs as a substring of the executable path, and an error line otherwise.
The ambient process state (`sys.executable`, `os.getcwd()`) is passed in as
explicit parameters; standard output is modelled as the list of printed lines.
-/

namespace CheckEnv

/-- The isolated-environment marker literal tested on line 8 of
`check_env.py` (`".venvs/Antigravity" in sys.executable`). -/
def marker : String := ".venvs/Antigravity"

/-- The success status line printed on line 9 of `check_env.py`. -/
def successLine : String := "✅ SUCCESS: Running in isolated Antigravity environment."

/-- The error status line printed on line 11 of `check_env.py`. -/
def errorLine : String := "❌ ERROR: Running in system Python!"

/-- Substring containment on character lists, the semantics of Python's
`pat in s` for strings: `pat` occurs contiguously somewhere in `s`. -/
def containsSub (pat : List Char) : List Char → Bool
  | [] => pat.isEmpty
  | c :: rest => pat.isPrefixOf (c :: rest) || containsSub pat rest

/-- Line 8 of `check_env.py`: `".venvs/Antigravity" in sys.executable`. -/
def containsMarker (executable : String) : Bool :=
  containsSub marker.data executable.data

/-- Shallow embedding of `main()` in `check_env.py`: the lines written to
standard output, as a function of `sys.executable` and `os.getcwd()`. -/
def main (executable cwd : String) : List String :=
  ("Python Executable: " ++ executable) ::
  ("Project Root: " ++ cwd) ::
  (if containsMarker executable then [successLine] else [errorLine])

/-- One `print` call: appends a line to the output accumulated so far.
`print` on a constant string cannot fail, so this never returns `.error`. -/
def printLine (out : List String) (line : String) : Except String (List String) :=
  .ok (out ++ [line])

/-- Exception-aware embedding of `main()`: each statement is a fallible step
(`Except` models a Python exception escaping the routine), sequenced exactly
as in the source. -/
def mainExc (executable cwd : String) : Except String (List String) := do
  let out ← printLine [] ("Python Executable: " ++ executable)
  let out ← printLine out ("Project Root: " ++ cwd)
  if containsMarker executable then
    printLine out successLine
  else
    printLine out errorLine

/-- Ambient process state the script could in principle touch: standard
output, the file system, and the environment-variable map. -/
structure World where
  stdout : List String
  files : List (String × String)
  env : List (String × String)
deriving DecidableEq, Repr

/-- Running the script over the ambient state: `argv` is the command line
(the script reads no flags), and the only state change is the three printed
lines appended to standard output. -/
def run (executable cwd : String) (_argv : List String) (w : World) : World :=
  { w with stdout := w.stdout ++ main executable cwd }

/-- Lines 13–14 of `check_env.py`: `main()` runs only under
`if __name__ == "__main__":`; importing the module executes nothing. -/
def runModule (isMain : Bool) (executable cwd : String) : List String :=
  if isMain then main executable cwd else []

/-- Whole-process run: output lines and exit status.  Python exits with the
default status 0 when `main()` returns normally, and nonzero when an
exception escapes. -/
def runProcess (executable cwd : String) : List String × Nat :=
  match mainExc executable cwd with
  | .ok out => (out, 0)
  | .error _ => ([], 1)

/-! ### Helper lemmas -/

/-- Two strings whose underlying character lists differ at some index are
distinct. -/
theorem string_ne_of_data_at (a b : String) (i : Nat) (c d : Char)
    (ha : a.data[i]? = some c) (hb : b.data[i]? = some d) (hcd : c ≠ d) :
    a ≠ b := by
  intro h
  rw [h] at ha
  rw [ha] at hb
  exact hcd (Option.some.inj hb)

/-- Appending to a string keeps every character of the first part in place. -/
theorem data_append_at (p s : String) (i : Nat) (c : Char)
    (hp : p.data[i]? = some c) : (p ++ s).data[i]? = some c := by
  have hlt : i < p.data.length := by
    by_contra hge
    rw [List.getElem?_eq_none (Nat.le_of_not_lt hge)] at hp
    exact Option.noConfusion hp
  rw [String.data_append, List.getElem?_append, if_pos hlt]
  exact hp

/-- `containsSub` decides contiguous containment (`List.IsInfix`). -/
theorem containsSub_iff_infix (pat s : List Char) :
    containsSub pat s = true ↔ pat <:+: s := by
  induction s with
  | nil =>
    simp [containsSub, List.isEmpty_iff, List.infix_nil]
  | cons c rest ih =>
    simp [containsSub, ih, List.infix_cons_iff]

/-- The interpreter-path report line never coincides with the
working-directory report line (they differ at character index 1). -/
theorem exe_line_ne_cwd_line (exe cwd : String) :
    ("Python Executable: " ++ exe) ≠ ("Project Root: " ++ cwd) :=
  string_ne_of_data_at _ _ 1 'y' 'r'
    (data_append_at _ _ 1 'y' (by decide)) (data_append_at _ _ 1 'r' (by decide))
    (by decide)

/-- The interpreter-path report line is never a status line. -/
theorem exe_line_ne_status (exe : String) :
    ("Python Executable: " ++ exe) ≠ successLine ∧
    ("Python Executable: " ++ exe) ≠ errorLine :=
  ⟨string_ne_of_data_at _ _ 0 'P' '✅'
      (data_append_at _ _ 0 'P' (by decide)) (by decide) (by decide),
   string_ne_of_data_at _ _ 0 'P' '❌'
      (data_append_at _ _ 0 'P' (by decide)) (by decide) (by decide)⟩

/-- The working-directory report line is never a status line. -/
theorem cwd_line_ne_status (cwd : String) :
    ("Project Root: " ++ cwd) ≠ successLine ∧
    ("Project Root: " ++ cwd) ≠ errorLine :=
  ⟨string_ne_of_data_at _ _ 0 'P' '✅'
      (data_append_at _ _ 0 'P' (by decide)) (by decide) (by decide),
   string_ne_of_data_at _ _ 0 'P' '❌'
      (data_append_at _ _ 0 'P' (by decide)) (by decide) (by decide)⟩

/-! ### Claims -/

/-- C1: for every interpreter path containing the isolated-environment
marker, the run emits the success status line as its third output line. -/
theorem third_line_success_of_marker (exe cwd : String)
    (h : containsMarker exe = true) :
    (main exe cwd)[2]? = some successLine := by
  simp [main, h]

/-- C1 witness: with interpreter path
`/home/user/.venvs/Antigravity/bin/python` the marker is present and the
third output line is the SUCCESS message. -/
theorem third_line_success_of_marker_witness :
    containsMarker "/home/user/.venvs/Antigravity/bin/python" = true ∧
    (main "/home/user/.venvs/Antigravity/bin/python" "/home/user/project")[2]? =
      some successLine :=
  ⟨by decide,
   third_line_success_of_marker "/home/user/.venvs/Antigravity/bin/python"
     "/home/user/project" (by decide)⟩

/-- C2: for every interpreter path not containing the isolated-environment
marker, the run emits the error status line as its third output line. -/
theorem third_line_error_of_no_marker (exe cwd : String)
    (h : containsMarker exe = false) :
    (main exe cwd)[2]? = some errorLine := by
  simp [main, h]

/-- C2 witness: with interpreter path `/usr/bin/python3` the marker is
absent and the third output line is the ERROR message. -/
theorem third_line_error_of_no_marker_witness :
    containsMarker "/usr/bin/python3" = false ∧
    (main "/usr/bin/python3" "/home/user/project")[2]? = some errorLine :=
  ⟨by decide,
   third_line_error_of_no_marker "/usr/bin/python3" "/home/user/project"
     (by decide)⟩

/-- C3: every run emits exactly one line reporting the interpreter path and
exactly one line reporting the working directory, on both branches of the
marker check. -/
theorem report_lines_once (exe cwd : String) :
    (main exe cwd).count ("Python Executable: " ++ exe) = 1 ∧
    (main exe cwd).count ("Project Root: " ++ cwd) = 1 := by
  have h1 := exe_line_ne_cwd_line exe cwd
  have h2 := exe_line_ne_status exe
  have h3 := cwd_line_ne_status cwd
  unfold main
  by_cases h : containsMarker exe <;>
    simp [h, List.count_cons, h1, Ne.symm h1, h2.1, h2.2, h3.1, h3.2,
      Ne.symm h2.1, Ne.symm h2.2, Ne.symm h3.1, Ne.symm h3.2]

/-- C4: the standard output of every run is exactly three lines — the
interpreter-path report, then the working-directory report, then a single
status line that is either the success or the error message, never both. -/
theorem output_three_lines (exe cwd : String) :
    (main exe cwd).length = 3 ∧
    (main exe cwd)[0]? = some ("Python Executable: " ++ exe) ∧
    (main exe cwd)[1]? = some ("Project Root: " ++ cwd) ∧
    ((main exe cwd)[2]? = some successLine ∨ (main exe cwd)[2]? = some errorLine) ∧
    ¬(successLine ∈ main exe cwd ∧ errorLine ∈ main exe cwd) := by
  have h2 := exe_line_ne_status exe
  have h3 := cwd_line_ne_status cwd
  have hse : successLine ≠ errorLine := by decide
  unfold main
  by_cases h : containsMarker exe <;>
    simp [h, Ne.symm h2.1, Ne.symm h2.2, Ne.symm h3.1, Ne.symm h3.2,
      hse, Ne.symm hse]

/-- C5: the status line is a pure function of the interpreter path alone —
two runs with the same interpreter path and any two working directories
produce the same third line, namely the marker check applied to the path. -/
theorem status_pure_in_executable (exe cwd₁ cwd₂ : String) :
    (main exe cwd₁)[2]? = (main exe cwd₂)[2]? ∧
    (main exe cwd₁)[2]? =
      some (if containsMarker exe then successLine else errorLine) := by
  by_cases h : containsMarker exe <;> simp [main, h]

/-- C6: the entry routine is total — on every interpreter path and working
directory the stepwise, exception-aware run returns normally (no `.error`),
producing exactly the output of the pure embedding. -/
theorem main_never_fails (exe cwd : String) :
    mainExc exe cwd = .ok (main exe cwd) := by
  by_cases h : containsMarker exe <;>
    simp [mainExc, main, printLine, h, bind, Except.bind]

/-- C7: the only side effect of a run is appending its three lines to
standard output — the file system and environment variables are unchanged,
and the command line `argv` has no influence on the result. -/
theorem side_effects_stdout_only (exe cwd : String) (argv : List String)
    (w : World) :
    (run exe cwd argv w).files = w.files ∧
    (run exe cwd argv w).env = w.env ∧
    (run exe cwd argv w).stdout = w.stdout ++ main exe cwd ∧
    ∀ argv' : List String, run exe cwd argv' w = run exe cwd argv w :=
  ⟨rfl, rfl, rfl, fun _ => rfl⟩

/-- C8: every run terminates normally with exit code 0, on both the success
and the error branch of the marker check. -/
theorem exit_code_zero (exe cwd : String) :
    (runProcess exe cwd).2 = 0 ∧ (runProcess exe cwd).1 = main exe cwd := by
  rw [runProcess, main_never_fails]
  exact ⟨rfl, rfl⟩

/-- C9: the marker is the exact case-sensitive literal `.venvs/Antigravity`,
tested by plain substring containment against the interpreter path: a path
with lowercase `.venvs/antigravity`, or with `venvs/Antigravity` but no
leading dot, fails the check, and no normalization is applied. -/
theorem marker_literal_containment :
    marker = ".venvs/Antigravity" ∧
    (∀ exe : String, containsMarker exe = true ↔ marker.data <:+: exe.data) ∧
    containsMarker "/home/user/.venvs/antigravity/bin/python" = false ∧
    containsMarker "/opt/venvs/Antigravity/bin/python" = false ∧
    containsMarker "/home/user/.venvs/Antigravity/bin/python" = true :=
  ⟨rfl, fun exe => containsSub_iff_infix marker.data exe.data,
   by decide, by decide, by decide⟩

/-- C10: the check runs only when the file is the program entry point —
importing the module (`isMain = false`) produces no output, while direct
execution produces exactly the output of `main`. -/
theorem output_only_when_main (exe cwd : String) :
    runModule false exe cwd = [] ∧ runModule true exe cwd = main exe cwd :=
  ⟨rfl, rfl⟩

end CheckEnv
